import Mathlib

/-!
Verification development for the Sereno group-chat backend
(src/chat/models.py, src/chat/services/message_services.py,
src/chat/services/user_services.py).

The data model and the service functions are embedded shallowly:
Django model rows become Lean structures, the database tables become
lists carried through each call, and every Python-level failure
(PermissionError, TypeError, NameError, AttributeError, ValueError,
ValidationError, IntegrityError) becomes a constructor of an explicit
error type returned through Except.
-/

/-- A row of the User model (src/chat/models.py line 6, an AbstractUser):
only the fields the services read are carried. -/
structure User where
  id : Nat
  username : String
  is_staff : Bool
  deriving Repr, DecidableEq

/-- A row of the Chat model (src/chat/models.py lines 57-61): a name, the
creator foreign key, and the members many-to-many set carried as user ids. -/
structure Chat where
  id : Nat
  name : String
  creator_id : Nat
  members : List Nat
  deriving Repr, DecidableEq

/-- A row of the Message model (src/chat/models.py lines 9-12). The model
declares exactly the fields sender, content and timestamp; it has NO chat
foreign key. -/
structure Message where
  id : Nat
  sender_id : Nat
  content : String
  timestamp : Nat
  deriving Repr, DecidableEq

/-- Python-level failures the service code can raise, together with the
database-level IntegrityError surfaced through Django. -/
inductive ServiceError where
  | permissionError (msg : String)
  | typeError (msg : String)
  | nameError (msg : String)
  | attributeError (msg : String)
  | valueError (msg : String)
  | validationError (msg : String)
  | integrityError (msg : String)
  deriving Repr, DecidableEq

/-- The Message table together with the auto-increment primary-key counter. -/
structure MsgStore where
  messages : List Message
  nextId : Nat
  deriving Repr, DecidableEq

/-- Characters removed by Python str.strip with no argument. -/
def isPySpace (c : Char) : Bool :=
  c == ' ' || c == '\t' || c == '\n' || c == '\r' || c == '\x0b' || c == '\x0c'

/-- Python str.strip: drop whitespace from both ends. -/
def pyStrip (s : String) : String :=
  String.mk (((s.data.dropWhile isPySpace).reverse.dropWhile isPySpace).reverse)

/-- The membership test on line 29 of message_services.py:
chat.members.filter(pk=sender.pk).exists() or chat.creator_id == sender.pk. -/
def is_member (chat : Chat) (sender : User) : Bool :=
  chat.members.contains sender.id || chat.creator_id == sender.id

/-- Field names declared on the Message model (src/chat/models.py lines 9-12),
together with the automatic primary key. -/
def messageFieldNames : List String := ["id", "sender", "content", "timestamp"]

/-- The keyword arguments send_message passes to Message.objects.create on
line 40 of message_services.py. -/
def sendMessageCreateKwargs : List String := ["sender", "content", "chat"]

/-- Keywords passed to a Django model constructor that name no declared field.
Model construction raises TypeError when this list is nonempty. -/
def invalidKwargs (passed fields : List String) : List String :=
  passed.filter (fun k => !(fields.contains k))

/-- Message.full_clean (line 43): content is a TextField with blank not
allowed, so an empty content fails model validation. -/
def message_full_clean (m : Message) : Except ServiceError Unit :=
  if m.content = "" then
    .error (.validationError "content: This field cannot be blank.")
  else
    .ok ()

/-- send_message (message_services.py lines 21-50). The content is stripped
and the membership check runs twice as in the source; there is no
empty-content check. Message.objects.create is then reached with the
keyword chat, which names no field of the Message model, so Django model
construction raises TypeError inside the atomic block and nothing is
written. The create-then-validate path that would run if every keyword
were a declared field is kept after the keyword check. -/
def send_message (st : MsgStore) (sender : User) (content : String)
    (chat : Chat) (now : Nat) : Except ServiceError (Message × MsgStore) :=
  let content := pyStrip content
  if !(is_member chat sender) then
    .error (.permissionError "Sender is not a member of the chat.")
  else if !(is_member chat sender) then
    .error (.permissionError "Sender is not a member of the chat.")
  else if !(invalidKwargs sendMessageCreateKwargs messageFieldNames).isEmpty then
    .error (.typeError "chat is an invalid keyword argument for Message")
  else
    let m : Message :=
      { id := st.nextId, sender_id := sender.id, content := content, timestamp := now }
    match message_full_clean m with
    | .error e => .error e
    | .ok _ => .ok (m, { messages := st.messages ++ [m], nextId := st.nextId + 1 })

/-- A message reference accepted by the services: a direct object or an id. -/
inductive MessageRef where
  | byId (id : Nat)
  | byValue (m : Message)
  deriving Repr, DecidableEq

/-- The resolve helper (message_services.py lines 65-72): a Message object is
returned as is, an id is looked up in the table, absent gives none. -/
def resolve_message (st : MsgStore) (ref : MessageRef) : Option Message :=
  match ref with
  | .byValue m => some m
  | .byId i => st.messages.find? (fun m => m.id == i)

/-- delete_message (message_services.py lines 111-132). In the source the
whole authorization block sits INSIDE the branch where the resolved message
is None, and the function has no return False statement:
with the message absent, an omitted actor hits actor.is_staff and raises
AttributeError; a supplied non-staff actor fails the test
actor.is_staff or getattr(None, "sender_id", None) == actor.id
(the getattr on None yields None, never equal to the id) and raises
PermissionError; a staff actor passes the test, falls through to
message.delete() with message = None and raises AttributeError.
With the message present the authorization block is skipped entirely and
the row is deleted for any actor. -/
def delete_message (st : MsgStore) (ref : MessageRef) (actor : Option User) :
    Except ServiceError (Bool × MsgStore) :=
  match resolve_message st ref with
  | none =>
    match actor with
    | none => .error (.attributeError "NoneType object has no attribute is_staff")
    | some a =>
      if !(a.is_staff || (none : Option Nat) == some a.id) then
        .error (.permissionError "Actor is not allowed to delete this message.")
      else
        .error (.attributeError "NoneType object has no attribute delete")
  | some m =>
    .ok (true, { st with messages := st.messages.filter (fun x => !(x.id == m.id)) })

/-- edit_message (message_services.py lines 135-165). The function never
calls the resolve helper, so the local name message is unbound on every
path: a supplied staff actor short-circuits the authorization test and then
hits message.full_clean(); a supplied non-staff actor hits
getattr(message, "sender_id", None) inside the test; an omitted actor skips
the test and hits message.full_clean(). Every path raises NameError before
any store access, so the store is never changed. -/
def edit_message (st : MsgStore) (ref : MessageRef) (actor : Option User)
    (new_content : String) : Except ServiceError (Message × MsgStore) :=
  match actor with
  | some a =>
    if a.is_staff then
      .error (.nameError "name message is not defined")
    else
      .error (.nameError "name message is not defined")
  | none => .error (.nameError "name message is not defined")

/-- Fixture: an ordinary user who is a member of the fixture chat. -/
def aliceU : User := { id := 1, username := "alice", is_staff := false }

/-- Fixture: an ordinary user who is not the fixture sender. -/
def bobU : User := { id := 2, username := "bob", is_staff := false }

/-- Fixture: a staff user. -/
def staffU : User := { id := 3, username := "root", is_staff := true }

/-- Fixture: a chat created by user 1 whose members are users 1 and 2. -/
def chatC : Chat := { id := 1, name := "c", creator_id := 1, members := [1, 2] }

/-- Fixture: a message sent by user 1. -/
def msgM : Message := { id := 1, sender_id := 1, content := "draft", timestamp := 0 }

/-- Claim C1: for chat chatC and its member aliceU, send_message with content
"hi" does not succeed: it raises TypeError, because line 40 passes the
keyword chat to the Message model, which declares no chat field. The claimed
success half of the equivalence therefore fails on the code. -/
theorem c1_send_member_raises_typeerror :
    send_message { messages := [], nextId := 1 } aliceU "hi" chatC 0
      = .error (.typeError "chat is an invalid keyword argument for Message") := by
  rfl

/-- Claim C2: a member sending whitespace-only content is not rejected with
an InvalidArgument failure; the code performs no empty-content check and
fails with the unrelated TypeError from the chat keyword instead. -/
theorem c2_send_blank_raises_typeerror :
    send_message { messages := [], nextId := 1 } aliceU "   " chatC 0
      = .error (.typeError "chat is an invalid keyword argument for Message") := by
  rfl

/-- Claim C3: deleting a nonexistent message id with a supplied non-staff
actor does not return false: the misplaced authorization block raises
PermissionError, and the function has no false-returning path at all. -/
theorem c3_delete_missing_raises :
    delete_message { messages := [], nextId := 1 } (.byId 999) (some bobU)
      = .error (.permissionError "Actor is not allowed to delete this message.") := by
  rfl

/-- Claim C4: an actor who is neither the sender nor staff deletes an
existing message successfully, because the authorization block only runs
when the message was NOT found; the claimed PermissionDenied never happens
and the row is removed. -/
theorem c4_delete_unauthorized_succeeds :
    delete_message { messages := [msgM], nextId := 2 } (.byId 1) (some bobU)
      = .ok (true, { messages := [], nextId := 2 }) := by
  rfl

/-- Claim C5: editing an existing message as an actor who is neither staff
nor the sender raises NameError (the local name message is unbound), not
the claimed PermissionDenied; the store is untouched. -/
theorem c5_edit_unauthorized_nameerror :
    edit_message { messages := [msgM], nextId := 2 } (.byValue msgM) (some bobU) "x"
      = .error (.nameError "name message is not defined") := by
  rfl

/-- Claim C6: editing an existing message as a staff actor with valid new
content raises NameError instead of returning the updated message; the code
can never apply new content (it also never assigns it to the message). -/
theorem c6_edit_authorized_nameerror :
    edit_message { messages := [msgM], nextId := 2 } (.byValue msgM) (some staffU) "final"
      = .error (.nameError "name message is not defined") := by
  rfl

/-- A row of the FriendRequest model (src/chat/models.py lines 46-52): a
directed pair of user ids, unique together on the ordered pair. The model
declares no accepted or is_accepted field. -/
structure FriendRequest where
  id : Nat
  from_user : Nat
  to_user : Nat
  deriving Repr, DecidableEq

/-- The FriendRequest table with the auto-increment primary-key counter. -/
structure FRStore where
  requests : List FriendRequest
  nextId : Nat
  deriving Repr, DecidableEq

/-- FriendRequest.objects.get_or_create(from_user=..., to_user=...) on
line 82 of user_services.py: return the existing row for the ordered pair,
or atomically insert a fresh one. The second component is the created flag. -/
def fr_get_or_create (st : FRStore) (fromId toId : Nat) :
    FriendRequest × Bool × FRStore :=
  match st.requests.find? (fun r => r.from_user == fromId && r.to_user == toId) with
  | some fr => (fr, false, st)
  | none =>
    let fr : FriendRequest := { id := st.nextId, from_user := fromId, to_user := toId }
    (fr, true, { requests := st.requests ++ [fr], nextId := st.nextId + 1 })

/-- send_friend_request (user_services.py lines 67-92). The self-request
guard compares the two model instances, which in Django is primary-key
equality; then get_or_create returns the existing or fresh row. -/
def send_friend_request (st : FRStore) (from_user to_user : User) :
    Except ServiceError (FriendRequest × FRStore) :=
  if from_user.id == to_user.id then
    .error (.valueError "Cannot send friend request to yourself.")
  else
    let r := fr_get_or_create st from_user.id to_user.id
    .ok (r.1, r.2.2)

/-- The rows of the FriendRequest table for one ordered (from, to) pair. -/
def pairRequests (st : FRStore) (a b : Nat) : List FriendRequest :=
  st.requests.filter (fun r => r.from_user == a && r.to_user == b)

/-- get_friends (user_services.py lines 95-119). The FriendRequest model has
no accepted or is_accepted attribute, so the mutual-request fallback branch
runs: collect the to_user ids of requests sent by the user, keep the
from_user ids of requests towards the user whose sender is among them, and
return the users with those ids. -/
def get_friends (users : List User) (requests : List FriendRequest)
    (user : User) : List User :=
  let sent_to_ids := (requests.filter (fun r => r.from_user == user.id)).map
    (fun r => r.to_user)
  let mutual_ids := (requests.filter
    (fun r => sent_to_ids.contains r.from_user && r.to_user == user.id)).map
    (fun r => r.from_user)
  users.filter (fun u => mutual_ids.contains u.id)

/-- A row of the Notification model (src/chat/models.py lines 37-41). -/
structure Notification where
  id : Nat
  user_id : Nat
  message_id : Nat
  is_read : Bool
  created_at : Nat
  deriving Repr, DecidableEq

/-- Notification.objects.get(id=...) with DoesNotExist mapped to none
(primary keys are unique, so the first match is the row). -/
def notification_get (st : List Notification) (nid : Nat) : Option Notification :=
  st.find? (fun n => n.id == nid)

/-- notif.save(update_fields=["is_read"]): rewrite the row carrying the
same primary key. -/
def notification_save (st : List Notification) (n : Notification) :
    List Notification :=
  st.map (fun x => if x.id == n.id then n else x)

/-- mark_notification_as_read (user_services.py lines 129-141): look up by
id; if found and unread, set is_read and save; return the notification, or
none when the id resolves to no row. -/
def mark_notification_as_read (st : List Notification) (nid : Nat) :
    Option Notification × List Notification :=
  match notification_get st nid with
  | some notif =>
    if !notif.is_read then
      let notif2 := { notif with is_read := true }
      (some notif2, notification_save st notif2)
    else
      (some notif, st)
  | none => (none, st)

/-- A row of the Profile model (src/chat/models.py lines 18-22): one-to-one
with User; age (line 20) is a non-nullable IntegerField with no default, so
a stored row always carries an age; bio is optional. -/
structure Profile where
  id : Nat
  user_id : Nat
  age : Int
  bio : Option String
  deriving Repr, DecidableEq

/-- The Profile table with the auto-increment primary-key counter. -/
structure ProfileStore where
  profiles : List Profile
  nextId : Nat
  deriving Repr, DecidableEq

/-- get_profile (user_services.py lines 13-26): return the existing profile
of the user, or none when absent and create_if_missing is false. When
absent and create_if_missing is true, line 24 runs
Profile.objects.create(user=user): the call sets only the user column, and
age (models.py line 20) is a non-nullable IntegerField with no default, so
the INSERT writes NULL into the NOT NULL age column and the database raises
IntegrityError through Django; no row is stored and nothing is returned. -/
def get_profile (st : ProfileStore) (user : User) (create_if_missing : Bool) :
    Except ServiceError (Option Profile × ProfileStore) :=
  match st.profiles.find? (fun p => p.user_id == user.id) with
  | some p => .ok (some p, st)
  | none =>
    if create_if_missing then
      .error (.integrityError "NOT NULL constraint failed: chat_profile.age")
    else
      .ok (none, st)

/-- The obtain-or-create step and the missing-profile guard at the top of
update_profile (user_services.py lines 36-38): call get_profile with
create_if_missing=True and raise ValueError if it returned None. A failure
raised inside get_profile propagates past the guard. -/
def update_profile_obtain (st : ProfileStore) (user : User) :
    Except ServiceError (Profile × ProfileStore) :=
  match get_profile st user true with
  | .error e => .error e
  | .ok (some p, st1) => .ok (p, st1)
  | .ok (none, _) => .error (.valueError "Unable to obtain or create profile for user.")

lemma pairRequests_pos_of_found {st : FRStore} {a b : Nat} {fr : FriendRequest}
    (hf : st.requests.find? (fun r => r.from_user == a && r.to_user == b) = some fr) :
    0 < (pairRequests st a b).length := by
  have hp := List.find?_some hf
  have hm := List.mem_of_find?_eq_some hf
  exact List.length_pos_of_mem (List.mem_filter.mpr ⟨hm, hp⟩)

/-- Claim C7: for distinct users A and B and a table with at most one row
for the ordered pair (get_or_create presupposes the unique_together
constraint), calling send_friend_request twice returns the same underlying
request both times, the second call leaves the table unchanged, and exactly
one row for the ordered pair exists afterwards. -/
theorem c7_send_friend_request_idempotent (A B : User) (st : FRStore)
    (hne : A.id ≠ B.id) (hinv : (pairRequests st A.id B.id).length ≤ 1) :
    ∃ fr st1,
      send_friend_request st A B = .ok (fr, st1) ∧
      send_friend_request st1 A B = .ok (fr, st1) ∧
      (pairRequests st1 A.id B.id).length = 1 := by
  have hAB : (A.id == B.id) = false := beq_eq_false_iff_ne.mpr hne
  cases hf : st.requests.find? (fun r => r.from_user == A.id && r.to_user == B.id) with
  | some fr =>
    refine ⟨fr, st, ?_, ?_, ?_⟩
    · simp [send_friend_request, fr_get_or_create, hAB, hf]
    · simp [send_friend_request, fr_get_or_create, hAB, hf]
    · have h2 := pairRequests_pos_of_found hf
      omega
  | none =>
    refine ⟨{ id := st.nextId, from_user := A.id, to_user := B.id },
      { requests := st.requests ++ [{ id := st.nextId, from_user := A.id, to_user := B.id }],
        nextId := st.nextId + 1 }, ?_, ?_, ?_⟩
    · simp [send_friend_request, fr_get_or_create, hAB, hf]
    · simp [send_friend_request, fr_get_or_create, hAB, List.find?_append, hf]
    · have hnil : st.requests.filter (fun r => r.from_user == A.id && r.to_user == B.id) = [] :=
        List.filter_eq_nil_iff.mpr (fun a ha => List.find?_eq_none.mp hf a ha)
      simp [pairRequests, List.filter_append, hnil]

/-- Claim C7 witness: on the empty table, sending a request from user 1 to
user 2 twice yields one row and the same request both times. -/
theorem c7_witness :
    ∃ fr st1,
      send_friend_request { requests := [], nextId := 1 } aliceU bobU = .ok (fr, st1) ∧
      send_friend_request st1 aliceU bobU = .ok (fr, st1) ∧
      (pairRequests st1 aliceU.id bobU.id).length = 1 :=
  c7_send_friend_request_idempotent aliceU bobU { requests := [], nextId := 1 }
    (by decide) (by decide)

/-- Claim C8: with the FriendRequest schema of this repository (which has no
acceptance flag), a user B of the user table is among get_friends of A
exactly when a request from A to B and a request from B to A both exist. -/
theorem c8_get_friends_mutual (users : List User) (requests : List FriendRequest)
    (A B : User) (hB : B ∈ users) (hne : A.id ≠ B.id) :
    B ∈ get_friends users requests A ↔
      ((∃ r ∈ requests, r.from_user = A.id ∧ r.to_user = B.id) ∧
       (∃ r ∈ requests, r.from_user = B.id ∧ r.to_user = A.id)) := by
  simp only [get_friends, List.mem_filter, List.mem_map, List.contains_iff_exists_mem_beq,
    Bool.and_eq_true, beq_iff_eq, hB, true_and]
  constructor
  · rintro ⟨i, ⟨r, ⟨hr, ⟨j, ⟨r1, ⟨hr1, hr1f⟩, rfl⟩, hjf⟩, hto⟩, rfl⟩, hBi⟩
    exact ⟨⟨r1, hr1, hr1f, by omega⟩, ⟨r, hr, by omega, hto⟩⟩
  · rintro ⟨⟨r1, hr1, hr1f, hr1t⟩, ⟨r2, hr2, hr2f, hr2t⟩⟩
    exact ⟨r2.from_user, ⟨r2, ⟨hr2, ⟨r1.to_user, ⟨r1, ⟨hr1, hr1f⟩, rfl⟩, by omega⟩, hr2t⟩, rfl⟩,
      by omega⟩

/-- Fixture: the friend request from user 1 to user 2. -/
def frAB : FriendRequest := { id := 1, from_user := 1, to_user := 2 }

/-- Fixture: the friend request from user 2 to user 1. -/
def frBA : FriendRequest := { id := 2, from_user := 2, to_user := 1 }

/-- Claim C8 witness: on a table holding the two mutual requests between
users 1 and 2, user 2 is among the friends of user 1. -/
theorem c8_witness :
    bobU ∈ get_friends [aliceU, bobU] [frAB, frBA] aliceU ↔
      ((∃ r ∈ [frAB, frBA], r.from_user = aliceU.id ∧ r.to_user = bobU.id) ∧
       (∃ r ∈ [frAB, frBA], r.from_user = bobU.id ∧ r.to_user = aliceU.id)) :=
  c8_get_friends_mutual [aliceU, bobU] [frAB, frBA] aliceU bobU (by decide) (by decide)

lemma notification_get_of_nodup (st : List Notification) (N : Notification)
    (hmem : N ∈ st) (hids : (st.map (fun n => n.id)).Nodup) :
    notification_get st N.id = some N := by
  induction st with
  | nil => cases hmem
  | cons h t ih =>
    rcases List.mem_cons.mp hmem with rfl | hmt
    · simp [notification_get, List.find?_cons]
    · have hids2 : h.id ∉ t.map (fun n => n.id) ∧ (t.map (fun n => n.id)).Nodup := by
        simpa [List.nodup_cons] using hids
      have hne : (h.id == N.id) = false := by
        refine beq_eq_false_iff_ne.mpr (fun he => hids2.1 ?_)
        exact he ▸ List.mem_map.mpr ⟨N, hmt, rfl⟩
      have ht := ih hmt hids2.2
      simpa [notification_get, List.find?_cons, hne] using ht

lemma notification_get_save (st : List Notification) (i : Nat) (N2 : Notification)
    (hid : N2.id = i) (hex : ∃ n ∈ st, n.id = i) :
    notification_get (notification_save st N2) i = some N2 := by
  induction st with
  | nil =>
    rcases hex with ⟨n, hn, -⟩
    cases hn
  | cons h t ih =>
    have hsave : notification_save (h :: t) N2
        = (if h.id == N2.id then N2 else h) :: notification_save t N2 := rfl
    rw [hsave]
    by_cases hcase : h.id = N2.id
    · have hb : (h.id == N2.id) = true := beq_iff_eq.mpr hcase
      rw [if_pos hb]
      exact List.find?_cons_of_pos _ (beq_iff_eq.mpr hid)
    · have hb : (h.id == N2.id) = false := beq_eq_false_iff_ne.mpr hcase
      have hni : h.id ≠ i := fun he => hcase (he.trans hid.symm)
      have hbi : (h.id == i) = false := beq_eq_false_iff_ne.mpr hni
      have hex2 : ∃ n ∈ t, n.id = i := by
        rcases hex with ⟨n, hn, hni2⟩
        rcases List.mem_cons.mp hn with rfl | hnt
        · exact absurd hni2 hni
        · exact ⟨n, hnt, hni2⟩
      rw [if_neg (by simp [hb])]
      rw [show notification_get ((h :: notification_save t N2)) i
            = List.find? (fun n => n.id == i) (h :: notification_save t N2) from rfl]
      rw [List.find?_cons_of_neg _ (by simp [hbi])]
      exact ih hex2

/-- Claim C9: for an existing notification N (primary keys are unique), the
first mark-as-read call flips is_read from false to true and returns the
row; the second call returns the same row, still read, and leaves the table
unchanged; an id carried by no row yields none and an unchanged table. -/
theorem c9_mark_notification_idempotent (st : List Notification) (N : Notification)
    (missing : Nat) (hmem : N ∈ st) (hids : (st.map (fun n => n.id)).Nodup)
    (hunread : N.is_read = false) (hmiss : ∀ n ∈ st, n.id ≠ missing) :
    ∃ st1,
      mark_notification_as_read st N.id = (some { N with is_read := true }, st1) ∧
      mark_notification_as_read st1 N.id = (some { N with is_read := true }, st1) ∧
      mark_notification_as_read st missing = (none, st) := by
  have hget : notification_get st N.id = some N := notification_get_of_nodup st N hmem hids
  refine ⟨notification_save st { N with is_read := true }, ?_, ?_, ?_⟩
  · simp [mark_notification_as_read, hget, hunread]
  · have hget2 : notification_get (notification_save st { N with is_read := true }) N.id
        = some { N with is_read := true } :=
      notification_get_save st N.id { N with is_read := true } rfl ⟨N, hmem, rfl⟩
    simp [mark_notification_as_read, hget2]
  · have hnone : notification_get st missing = none :=
      List.find?_eq_none.mpr (fun n hn => by simpa using hmiss n hn)
    simp [mark_notification_as_read, hnone]

/-- Fixture: an unread notification for user 1 about message 1. -/
def notifN : Notification :=
  { id := 1, user_id := 1, message_id := 1, is_read := false, created_at := 0 }

/-- Claim C9 witness: on a table holding one unread notification with id 1,
marking id 1 flips it to read, a second call is a no-op returning the same
row, and marking the absent id 2 returns none with the table unchanged. -/
theorem c9_witness :
    ∃ st1,
      mark_notification_as_read [notifN] notifN.id = (some { notifN with is_read := true }, st1) ∧
      mark_notification_as_read st1 notifN.id = (some { notifN with is_read := true }, st1) ∧
      mark_notification_as_read [notifN] 2 = (none, [notifN]) :=
  c9_mark_notification_idempotent [notifN] notifN 2 (by decide) (by decide) (by decide) (by decide)

/-- Claim C10: for a user with no profile row, get_profile with
create_if_missing set does not return a newly created profile: the create
call raises IntegrityError, because it supplies no value for the
non-nullable age column. In update_profile the raised failure propagates
past the missing-profile ValueError guard, so the guard still never fires,
but the claimed lazy creation can never succeed. -/
theorem c10_get_profile_create_integrityerror :
    get_profile { profiles := [], nextId := 1 } aliceU true
      = .error (.integrityError "NOT NULL constraint failed: chat_profile.age")
    ∧ update_profile_obtain { profiles := [], nextId := 1 } aliceU
      = .error (.integrityError "NOT NULL constraint failed: chat_profile.age") :=
  ⟨rfl, rfl⟩
